import Mathlib

/-!
Verification of the Hubbard repository documentation artifacts.

The repository consists of documentation and configuration data: three
tutorial notebooks (two under `tutorials/`, one unnamed), a Sphinx docs
page carrying the mean-field Hubbard equation, and a TBtrans/TranSiesta
configuration file.  This development embeds those artifacts verbatim
(notebooks cell by cell and line by line, the configuration file line by
line) together with the line-level analyses the properties need: an
fdf-style `%block` reader for the configuration file and a token-level
classifier for Python code lines.
-/

set_option maxRecDepth 4000

/-- The two cell types occurring in the tutorial notebooks. -/
inductive CellType
  | code
  | markdown
  deriving DecidableEq

/-- A notebook cell: its type and its source text, line by line. -/
structure Cell where
  cellType : CellType
  source : List String
  deriving DecidableEq

/-- Is this a code cell? -/
def Cell.isCode (c : Cell) : Bool :=
  match c.cellType with
  | CellType.code => true
  | CellType.markdown => false

/-- Split a character list into the maximal runs of characters kept by
`keep`; `acc` holds the current run, reversed. -/
def splitWordsAux (keep : Char → Bool) : List Char → List Char → List String
  | [], acc => if acc.isEmpty then [] else [acc.reverse.asString]
  | c :: cs, acc =>
    if keep c then splitWordsAux keep cs (c :: acc)
    else if acc.isEmpty then splitWordsAux keep cs []
    else acc.reverse.asString :: splitWordsAux keep cs []

/-- The maximal runs of characters of `s` kept by `keep`. -/
def splitWords (keep : Char → Bool) (s : String) : List String :=
  splitWordsAux keep s.toList []

/-- The space-separated tokens of a configuration line. -/
def lineTokens (s : String) : List String :=
  splitWords (fun c => c != ' ') s

/-- A line is blank when it holds nothing but spaces. -/
def blankLine (s : String) : Bool :=
  (lineTokens s).isEmpty

/-- The label opened by a `%block` directive line, when the line is one. -/
def blockOpenLabel (s : String) : Option String :=
  match lineTokens s with
  | "%block" :: rest => rest.head?
  | _ => none

/-- Is this line an `%endblock` directive? -/
def isEndblock (s : String) : Bool :=
  match lineTokens s with
  | w :: _ => w == "%endblock"
  | [] => false

/-- The label written after `%endblock`, when present. -/
def endblockLabel (s : String) : Option String :=
  match lineTokens s with
  | _ :: l :: _ => some l
  | _ => none

/-- A parsed `%block` section: its opening label, its body lines, and the
label written after the closing `%endblock`, when one is present. -/
structure ConfigBlock where
  name : String
  body : List String
  closeLabel : Option String
  deriving DecidableEq

/-- State of the line-by-line configuration reader: the completed blocks,
the block currently open (if any), the lines seen outside every block, and
a flag that records whether every `%endblock` closed an open block and no
`%block` opened inside another block. -/
structure ParseState where
  blocks : List ConfigBlock
  current : Option (String × List String)
  outside : List String
  balanced : Bool
  deriving DecidableEq

/-- Consume one configuration line. -/
def stepLine (st : ParseState) (l : String) : ParseState :=
  match st.current with
  | none =>
    match blockOpenLabel l with
    | some n => { st with current := some (n, []) }
    | none =>
      if isEndblock l then
        { st with outside := st.outside ++ [l], balanced := false }
      else
        { st with outside := st.outside ++ [l] }
  | some (n, body) =>
    if isEndblock l then
      { st with blocks := st.blocks ++ [⟨n, body, endblockLabel l⟩], current := none }
    else if (blockOpenLabel l).isSome then
      { st with current := some (n, body ++ [l]), balanced := false }
    else
      { st with current := some (n, body ++ [l]) }

/-- Read a configuration file, line by line. -/
def parseConfig (ls : List String) : ParseState :=
  ls.foldl stepLine ⟨[], none, [], true⟩

/-- The TBtrans/TranSiesta configuration file `unnamed/part_001`, verbatim,
line by line. -/
def configLines : List String := [
  "SystemLabel device",
  "",
  "TBT.HS MFH_HC.nc",
  "",
  "%block TBT.Contours",
  "  window",
  "%endblock",
  "",
  "%block TBT.Contour.window",
  " part line",
  "   from -10.0 eV to 10.0 eV",
  "    delta 0.01 eV",
  "     method mid-rule",
  "%endblock",
  "",
  "%block TS.Elecs",
  "  HGNRA",
  "  HGNRB",
  "%endblock TS.Elecs",
  "",
  "%block TS.Elec.HGNRA",
  "  TSHS MFH_elec.nc",
  "  chem-pot POT",
  "  semi-inf-dir -a1",
  "  elec-pos begin 1",
  "%endblock TS.Elec.HGNRA",
  "",
  "%block TS.Elec.HGNRB",
  "  TSHS MFH_elec.nc",
  "  chem-pot POT",
  "  semi-inf-dir +a1",
  "  elec-pos end -1",
  "%endblock TS.Elec.HGNRB",
  "",
  "TBT.Voltage    0.00000 eV",
  "",
  "%block TBT.ChemPots",
  "  POT",
  "%endblock TS.ChemPots",
  " ",
  "%block TBT.ChemPot.POT",
  "  mu V/2",
  "%endblock TS.ChemPot.POT"
]

/-- The parsed configuration file. -/
def parsedConfig : ParseState :=
  parseConfig configLines

/-- The `%block` sections of the configuration file, in order. -/
def configBlocks : List ConfigBlock :=
  parsedConfig.blocks

/-- The opening labels of the `%block` sections, in order. -/
def blockNames : List String :=
  configBlocks.map (fun b => b.name)

/-- The configuration lines outside every `%block` section. -/
def outsideLines : List String :=
  parsedConfig.outside

/-- Look a block up by its opening label. -/
def findBlock (n : String) : Option ConfigBlock :=
  configBlocks.find? (fun b => b.name == n)

/-- The value tokens of the first line of a block body starting with `key`. -/
def bodyKv (b : ConfigBlock) (key : String) : Option (List String) :=
  (b.body.filterMap (fun l =>
    match lineTokens l with
    | k :: rest => if k == key then some rest else none
    | [] => none)).head?

/-- The value tokens of keyword `key` inside block `blockName`. -/
def kvInBlock (blockName key : String) : Option (List String) :=
  match findBlock blockName with
  | none => none
  | some b => bodyKv b key

/-- The value tokens of keyword `key` on a line outside every block. -/
def outsideKv (key : String) : Option (List String) :=
  (outsideLines.filterMap (fun l =>
    match lineTokens l with
    | k :: rest => if k == key then some rest else none
    | [] => none)).head?

/-- Does the body of block `b` hold a line whose keyword is `key`? -/
def blockHasKey (b : ConfigBlock) (key : String) : Bool :=
  b.body.any (fun l => (lineTokens l).head? == some key)

/-- The electrode names listed in the `TS.Elecs` block. -/
def elecNames : List String :=
  match findBlock "TS.Elecs" with
  | some b => b.body.flatMap lineTokens
  | none => []

/-- The chemical-potential names listed in the `TBT.ChemPots` block. -/
def chemPotNames : List String :=
  match findBlock "TBT.ChemPots" with
  | some b => b.body.flatMap lineTokens
  | none => []

/-- The sections of the configuration file that describe electrodes. -/
def elecSectionNames : List String :=
  ["TS.Elecs", "TS.Elec.HGNRA", "TS.Elec.HGNRB"]

/-- Two semi-infinite direction tokens are opposite when they name the same
axis with opposite signs. -/
def oppositeDirs (a b : String) : Bool :=
  match a.toList, b.toList with
  | ca :: ra, cb :: rb =>
    ra == rb && ((ca == '-' && cb == '+') || (ca == '+' && cb == '-'))
  | _, _ => false

/-- Does the first list start with the second one? -/
def listStartsWith : List Char → List Char → Bool
  | _, [] => true
  | [], _ :: _ => false
  | a :: as, b :: bs => a == b && listStartsWith as bs

/-- Does `pat` occur as a contiguous run inside `l`? -/
def charsHaveSub : List Char → List Char → Bool
  | [], pat => pat.isEmpty
  | l@(_ :: rest), pat => listStartsWith l pat || charsHaveSub rest pat

/-- Does `pat` occur as a substring of `s`? -/
def containsSub (s pat : String) : Bool :=
  charsHaveSub s.toList pat.toList

/-- The leading Python word of a line: the first maximal run of identifier
characters after the indentation. -/
def leadingWord (s : String) : String :=
  ((s.toList.dropWhile (fun c => c == ' ')).takeWhile
    (fun c => c.isAlphanum || c == '_')).asString

/-- The identifier-shaped words of a Python line: maximal runs of identifier
characters. -/
def pyWords (s : String) : List String :=
  splitWords (fun c => c.isAlphanum || c == '_') s

/-- Python keywords that introduce control flow, suspension, or compound
statements; a straight-line statement begins with none of them. -/
def pyControlKeywords : List String :=
  ["if", "elif", "else", "for", "while", "try", "except", "finally",
   "with", "def", "class", "return", "break", "continue", "yield",
   "raise", "assert", "pass", "del", "global", "nonlocal", "match",
   "case", "async", "await", "lambda"]

/-- The kinds of straight-line notebook code lines. -/
inductive PyLineKind
  | blank
  | comment
  | magic
  | importDirective
  | statement
  deriving DecidableEq

/-- Classify a Python code line; `none` for a line opening control flow. -/
def classifyPyLine (s : String) : Option PyLineKind :=
  match s.toList.dropWhile (fun c => c == ' ') with
  | [] => some PyLineKind.blank
  | c :: _ =>
    if c == '#' then some PyLineKind.comment
    else if c == '%' then some PyLineKind.magic
    else if leadingWord s == "import" || leadingWord s == "from" then
      some PyLineKind.importDirective
    else if pyControlKeywords.contains (leadingWord s) then none
    else some PyLineKind.statement

/-- All source lines of the code cells of a notebook, in order. -/
def codeLines (cs : List Cell) : List String :=
  (cs.filter Cell.isCode).flatMap Cell.source

/-- Words whose appearance in a code line would indicate error handling. -/
def errorHandlingWords : List String :=
  ["try", "except", "finally", "raise", "assert"]

/-- Words whose appearance in a code line would indicate concurrency,
suspension, or shared-resource primitives. -/
def concurrencyWords : List String :=
  ["threading", "multiprocessing", "asyncio", "concurrent", "async",
   "await", "Lock", "RLock", "Semaphore", "Thread", "Process", "Pool",
   "fork", "spawn"]

/-- The files of the source set, with the format each one's content has. -/
def sourceSetFiles : List (String × String) := [
  ("docs/examples.rst", "rst"),
  ("tutorials/MFH_1/run.ipynb", "notebook"),
  ("tutorials/MFH_3/run.ipynb", "notebook"),
  ("unnamed/part_000", "notebook"),
  ("unnamed/part_001", "config")
]
def mfh1Cells : List Cell := [
  Cell.mk CellType.code [
    "import sisl",
    "import hubbard as hubb",
    "import hubbard.sp2 as sp2",
    "import hubbard.density as density",
    "import hubbard.plot as plot",
    "%matplotlib inline"
  ],
  Cell.mk CellType.markdown [
    "# Isolated structures (molecules)",
    "",
    "In this example we study the effect of on-site Coulomb interactions for electrons in a carbon-based molecular geometry by solving the mean-field Hubbard equation using the \x60hubbard\x60 package.",
    "",
    "We will use the molecule of ref. [Nature Communications 10, 200 (2019)](https://www.nature.com/articles/s41467-018-08060-6) and compare the simulation with the experimental system.",
    "",
    "You can find the molecular geometry in the file \x60junction-2-2.XV\x60."
  ],
  Cell.mk CellType.markdown [
    "### Getting started:",
    "",
    "We will start by building the tight-binding (TB) Hamiltonian for an sp2 carbon-based molecule, by first reading the geometry file using \x60sisl\x60. To build the TB Hamiltonian (which describes the kinetic part of the system\x27s Hamiltonian) we will use the function from the \x60hubbard\x60 package \x60sp2\x60 that builds the TB \x60sisl.Hamiltonian\x60 of an sp2 carbon system. In particular, we will use the set of parameters \x60t1=2.7\x60,\x60t2=0.2\x60 and \x60t3=0.18\x60 eV to model this Hamiltonian."
  ],
  Cell.mk CellType.code [
    "# Build sisl.Geometry object from the \x27XV\x27 file",
    "geom = sisl.get_sile(\x27junction-2-2.XV\x27).read_geometry()",
    "",
    "# Build sisl.Hamiltonian object using the sp2 function",
    "Hsp2 = sp2(geom, t1=2.7, t2=0.2, t3=0.18)"
  ],
  Cell.mk CellType.markdown [
    "We will build the \x60HubbardHamiltonian\x60 object, which will enable the routines to iterate the mean field Hubbard Hamiltonian until it finds the self-consistent solution (convergence). To model the interaction part (Hubbard term) we will use \x60U=3.5\x60 eV. You can find the parameters used to build the full Hamiltonian (both the kinetic and interaction parts) in the [Supp. Material](https://www.nature.com/articles/s41467-018-08060-6#Sec12) of the [paper referenced above](https://www.nature.com/articles/s41467-018-08060-6) and references therein.",
    "",
    "",
    "For more information type:",
    "",
    "\x60\x60\x60",
    "help(hubb.HubbardHamiltonian)",
    "\x60\x60\x60"
  ],
  Cell.mk CellType.code [
    "# Build the HubbardHamiltonian object with U=3.5 at a temperature of kT~0 in units of the Boltzmann constant",
    "HH = hubb.HubbardHamiltonian(Hsp2, U=3.5, kT=1e-5)"
  ],
  Cell.mk CellType.markdown [
    "##### Important note before starting the convergence process",
    "It is important to initialize the convergence of the \x60HubbardHamiltonian\x60 object with an initial spin-density distribution that breaks the symmetry between the up- and down- spin channels. Otherwise the code *will not be able to find a solution*.",
    "Furthermore, the closer the initial spin-densities are to the self-consistent solution, the faster the code will find it."
  ],
  Cell.mk CellType.code [
    "# Firstly we have to initialize the spin-densities distribution (polarization)",
    "# The polarization can be tuned by using the following function to start with a",
    "# specific up- and down-spin density distribution. In this case we will start",
    "# by placing up-spin components at atomic postion 77 and down-spin components at position 23",
    "HH.set_polarization([77], dn=[23])"
  ],
  Cell.mk CellType.markdown [
    "Now we can start the convergence process by calling the \x60HubbardHamiltonian.converge\x60 method. It will iterate until it finds the self-consistent solution up to a desired tolerance (\x60tol\x60). This method needs as a mandatory argument another function that returns the spin-densities. Depending on the system or the boundary conditions, the spin-densities will be obtained differently. For instance, to compute the spin-densities for TB Hamiltonians of *finite (isolated) or periodic* structures, one can use the method \x60hubbard.density.calc_n\x60.",
    "",
    "Type:",
    "",
    "\x60\x60\x60",
    "help(hubb.HubbardHamiltonian.converge)",
    "\x60\x60\x60",
    "and/or",
    "",
    "\x60\x60\x60",
    "help(density.calc_n)",
    "\x60\x60\x60",
    "",
    "for more information."
  ],
  Cell.mk CellType.code [
    "# Converge until a tolerance of tol=1e-10",
    "# With print_info=True it prints (dn,  Etot) for each 10 iterations",
    "# where dn is the spin-densities difference between last and current iteration and Etot is the total energy",
    "dn = HH.converge(density.calc_n, tol=1e-10, print_info=True, steps=10)"
  ],
  Cell.mk CellType.markdown [
    "##### Understanding the final results",
    "During the iteration process the total energy has also been calculated. Now that the convergence has been achieved, the total energy for the self-consistent solution is stored in the \x60HubbardHamiltonian\x60 object. We can save this value to compare it with further calculations."
  ],
  Cell.mk CellType.code [
    "# Save total energy",
    "E_0 =  HH.Etot",
    "print(f\"Total energy = \x7bE_0\x7d\")"
  ],
  Cell.mk CellType.markdown [
    "Also, we can visualize some meaningful physical quantities and properties of the solution, e.g. such as the spin polarization. Other interesting electronic properties can be visualized using the \x60hubbard.plot\x60 module (take a look at the exercises section below)"
  ],
  Cell.mk CellType.code [
    "# Let\x27s visualize some relevant physical quantities of the final result (this process may take a few seconds)",
    "# By passing the argument ext_geom one can plot the spin polarization using the full geometry for the sp2 system",
    "# e.g. including Hydrogen atoms. Otherwise it only displays the carbon backbone (pi-network) structure",
    "p = plot.SpinPolarization(HH, colorbar=True, vmax=0.4, vmin=-0.4, ext_geom=geom)",
    "p.annotate()"
  ],
  Cell.mk CellType.markdown [
    "##### Using output of the mean-field Hubbard model to start SIESTA calculation",
    "The \x60hubbard\x60 package can be used to give a starting spin-density distribution for a more accurate spin polarized [SIESTA](https://gitlab.com/siesta-project/siesta) calculation, by writing the spin densities to a \x60fdf-block\x60:"
  ],
  Cell.mk CellType.code [
    "# Write the self-consistent solution of the mean-field Hubbard calculation",
    "# to an input file for a SIESTA calculation.",
    "# ext_geom is the full sp2 geometry that includes the Hydrogen atoms,",
    "# otherwise it uses only the carbon backbone structure (pi-network) stored in the Hsp2 Hamiltonian",
    "HH.write_initspin(\x27init-spin.fdf\x27, ext_geom=geom)"
  ],
  Cell.mk CellType.markdown [
    "## Try it yourself",
    "",
    "#### Simulation of the singlet-triplet transtition energy",
    "",
    "Now you can use the \x60hubbard\x60 capabilities to perform further simulations on the molecule from the example above.",
    "In absence of specifications, since the molecule has an even number of total electrons, the charge associated to the up- and down-spin channels is equal (\x60ntot/2\x60).",
    "Therefore, we have just found the antiferromagnetic solution. ",
    "But we can manipulate and compute the solution for the ferromagnetic case (or other magnetic states), by imposing an imbalance between up- and down-spin components. ",
    "",
    "To find the ferromagnetic solution one just have to do:",
    "",
    "\x60\x60\x60",
    "HH.q[0] += 1",
    "HH.q[1] -= 1",
    "\x60\x60\x60",
    "",
    "and converge again.",
    "",
    "You can now plot the spin polarization of the ferromagnetic solution and compare with the previous solution.",
    "",
    "Now compare the total energies, this will tell you which solution is the ground state.",
    "",
    "##### Extra material:",
    "You can go to the [Supp. Material](https://www.nature.com/articles/s41467-018-08060-6#Sec12) of the [referenced paper above](https://www.nature.com/articles/s41467-018-08060-6), and try to reproduce other results, e.g. such as the singlet triplet transition curve as a function of the Coulomb parameter \x60U\x60, the wavefunctions for each spin-channel, etc."
  ],
  Cell.mk CellType.code [
  ]
]

def mfh3Cells : List Cell := [
  Cell.mk CellType.code [
    "import sisl",
    "import numpy as np",
    "import hubbard as hubb",
    "import hubbard.sp2 as sp2",
    "import hubbard.density as density",
    "from hubbard.negf import NEGF",
    "import hubbard.plot as plot",
    "%matplotlib inline"
  ],
  Cell.mk CellType.markdown [
    "# Open quantum systems (Green\u2019s functions)",
    "",
    "In this example we will study the effect of on-site Coulomb repulsion interactions in an open-quantum system, and find the self-consistent solution to the mean-field Hubbard Hamiltonian using the non-equilibrium Green\x27s function (NEGF) formalism within the \x60hubbard\x60 package.",
    "",
    "Here we will reproduce the results presented in [Phys. Rev. B 81, 245402 (2010)](https://journals.aps.org/prb/abstract/10.1103/PhysRevB.81.245402) for the system shown in Fig. 3(a). This is, a zigzag graphene nanoribbon with a defect created by removing certain atoms in the central region. This open-quantum system is composed by a central region that contains the defect coupled to two semi-infinite leads or electrodes (left and right).",
    "",
    "We will focus on the equilibrium situation, therefore the temperature and chemical potentials of the electrodes *must coincide*. The complex contour that we use to integrate the density matrix in the \x60hubbard.NEGF\x60 class is extracted from a [TranSiesta](https://gitlab.com/siesta-project/siesta) calculation performed for a temperature of \x60kT=0.025\x60 eV, which we will set as common for all the composing element calculations."
  ],
  Cell.mk CellType.code [
    "# Set U and kT for the whole calculation (use these values when needed)",
    "U = 2.0",
    "kT = 0.025"
  ],
  Cell.mk CellType.markdown [
    "#### 1) Compute the electrodes ",
    "We will start by building the tight-binding (TB) Hamiltonian for the graphene nanoribbons, which compose the electrodes (periodic boundary conditions). Then we will find their self-consistent solution by using the \x60hubbard\x60 package. Look into excercise [MFH 2](../MFH_2/run.ipynb)"
  ],
  Cell.mk CellType.code [
    "# Build sisl.Geometry object of a ZGNR of width W=5 C-atoms across,",
    "# e.g., by using the function sisl.geom.zgnr.",
    "# This function returns the unit-cell of a periodic ZGNR along the x-axis.",
    "ZGNR = sisl.geom.zgnr(5)",
    "",
    "# Build tight-binding Hamiltonian using sp2 function",
    "H_elec = sp2(ZGNR, t1=2.7, t2=0.2, t3=0.18, s1=0, s2=0, s3=0)",
    "",
    "# Build the HubbardHamiltonian object for the periodic system:",
    "MFH_elec = hubb.HubbardHamiltonian(H_elec, nkpt=[nkx, nky, nkz], U=U, kT=kT)",
    "",
    "# Initialize electrodes spin density",
    "MFH_elec.set_polarization([0], dn=[9])",
    "",
    "# Converge Electrode Hamiltonians",
    "dn = MFH_elec.converge(...)"
  ],
  Cell.mk CellType.markdown [
    "Plot the spin polarization of the unit cell to check out the self-consistent solution."
  ],
  Cell.mk CellType.code [
    "# Now we have the converged electrodes saved in the MFH_elec variable",
    "p = plot.SpinPolarization(MFH_elec, colorbar=True, vmax=0.4, vmin=-0.4)"
  ],
  Cell.mk CellType.markdown [
    "#### 2) Build the central region",
    "The next step is to build the geometry of the whole device. The system is composed by a series of repetitions of the electrode and a defect in the center (scattering center). We also have to make sure that the device is finite (no periodic boundary conditions)."
  ],
  Cell.mk CellType.code [
    "# Build central region TB Hamiltonian",
    "HC = H_elec.tile(16, axis=0)",
    "",
    "# Remove atoms in the central area to recreate the system of Fig. 3 (a) of the reference paper.",
    "HC = HC.remove([67, 68, 69, 72, 73, 74, 77, 78, 79, 82, 83, 84, 87, 88, 89])",
    "",
    "# Make it finite",
    "HC.set_nsc([1, 1, 1])",
    "",
    "# Write geometry to file if one wants to visualize it",
    "HC.geometry.write(\x27device.xyz\x27)"
  ],
  Cell.mk CellType.markdown [
    "#### 3) Obtain the spin-density for the open-quantum system",
    "",
    "- Create the \x60HubbardHamiltonian\x60 object for the device system",
    "",
    "The \x60NEGF\x60 is a class of the \x60hubbard\x60 package, therefore the first step is to create the \x60NEGF\x60 object for the device and electrodes. To build this object one has to pass the following arguments:",
    "",
    "- the non-converged \x60HubbardHamiltonian\x60 object of the device",
    "- a list that contains all the electrodes in the device with its semi-infinite direction, e.g. \x60[(ElecA, DirA), (ElecB, DirB), ...]\x60. Where \x60ElecA\x60, \x60ElecB\x60 stand for the names of the variables of the \x60HubbardHamiltonian\x60 of the *converged* electrodes\x27 Hamiltonians, while \x60DirA\x60, \x60DirB\x60 stand for the semi-infinite direction of each electrode. Following \x60sisl\x60 notation these directions can be: \x60-A,+A,-B,+B,-C,+C\x60 for semi-infinite direction along the first, second or third axes (\x60A,B,C\x60), respectively. The sign indicates the sense towards the semi-infinite lead grows.",
    "- the atomic positions of where the electrodes are mapped in the device.",
    "",
    "Then you can converge the Hamiltonian of this open quantum system by using the methods of the \x60NEGF\x60 class."
  ],
  Cell.mk CellType.code [
    "# Create the HubbardHamiltonian for the device",
    "MFH_HC = hubb.HubbardHamiltonian(HC, U=U, kT=kT)",
    "",
    "# Initialize spin densities!",
    "# We will start with polarization on the lower and upper edges of the zigzag nanorribon:",
    "lower = np.where(MFH_HC.geometry.xyz[:,1] == np.amin(H_dev.geometry.xyz[:,1]))[0]",
    "upper = np.where(MFH_HC.geometry.xyz[:,1] == np.amax(H_dev.geometry.xyz[:,1]))[0]",
    "MDH_HC.set_polarization(lower, dn=upper)",
    "",
    "# Define the electrode atomic positions inside the device (in this case, the first and last blocks):",
    "elec_indx = [range(len(H_elec)), range(-len(H_elec), 0)]",
    "",
    "# Create the NEGF object for the device and electrodes. This class will allow you to use the methods",
    "# to solve open-quantum systems with the Green\x27s function formalism",
    "negf = NEGF(MFH_HC, [(MFH_elec, \x27-A\x27), (MFH_elec, \x27+A\x27)], elec_indx)",
    "",
    "# Use the method negf.calc_n_open to converge the device Hamiltonian:",
    "dn = MFH_HC.converge(negf.calc_n_open, steps=1, tol=1e-5, func_args=\x7b\x27qtol\x27: 1e-4\x7d, print_info=True)"
  ],
  Cell.mk CellType.code [
    "# Now we have the converged device Hamiltonian, let\x27s plot the spin polarization",
    "p = plot.SpinPolarization(H_dev, colorbar=True, vmax=0.4, vmin=-0.4)"
  ],
  Cell.mk CellType.markdown [
    "## Try it yourself",
    "",
    "Having solved the mean-field Hubbard Hamiltonian with the NEGF formalism allows us to perform other interesting calculations such as transport simulations for this open quantum system. For instance, one can obtain the transmission probabilities per spin channel. ",
    "Look into example [TB_04](https://github.com/zerothi/ts-tbt-sisl-tutorial/blob/master/TB_04/run.ipynb) for more information about how [TBtrans](https://gitlab.com/siesta-project/siesta) and [sisl](https://zerothi.github.io/sisl) can be combined. You should:",
    "1. Ensure that the electrodes and device Hamiltonians are shifted with respect to their Fermi levels:",
    "",
    "\x60\x60\x60python",
    "# Find Fermi level of the electrode:",
    "Ef = MFH_elec.fermi_level() # It\x27s a list of two floats, one per each spin channel",
    "MFH_elec.shift(-Ef)",
    "",
    "# Shift device with its potential, this value is stored in the NEFG object after convergence:",
    "MFH_HC.shift(-negf.Ef)",
    "\x60\x60\x60",
    "",
    "2. Save each Hamiltonian in \x60netCDF4\x60 format (suitable for a \x60TBtrans\x60 calculation):",
    "",
    "\x60\x60\x60python",
    "MFH_elec.H.write(\x27MFH_elec.nc\x27)",
    "MFH_HC.H.write(\x27MFH_HC.nc\x27)",
    "\x60\x60\x60",
    "",
    "3. There is an input file (\x60RUN.fdf\x60) for \x60TBtrans\x60 in this directory, you may want to use it to run \x60TBtrans\x60 to obtain the transmission probabilities per spin channel, which you can extract with \x60sisl\x60 and plot them."
  ],
  Cell.mk CellType.code [
  ]
]

def periodicCells : List Cell := [
  Cell.mk CellType.code [
    "import sisl",
    "import hubbard as hubb",
    "import hubbard.sp2 as sp2",
    "import hubbard.density as density",
    "import hubbard.plot as plot",
    "%matplotlib inline"
  ],
  Cell.mk CellType.markdown [
    "# Periodic structures (perfect crystals, Bloch\u2019s theorem) ",
    "",
    "In this example we will reproduce the results of Ref. [Phys. Rev. B 81, 245402 (2010)](https://journals.aps.org/prb/abstract/10.1103/PhysRevB.81.245402). We will study the effect of on-site Coulomb interactions for electrons in a periodic 1D system by solving the mean-field Hubbard equation using the \x60hubbard\x60 package.",
    "",
    "Consider, for instance, the case of the zigzag graphene nanoribbon 16 C-atoms across width (which we will call 16-ZGNR) with the parameters of set D (see Table I of the [Ref. paper](https://journals.aps.org/prb/abstract/10.1103/PhysRevB.81.245402)). This is, \x60t1=2.7\x60, \x60t2=0.2\x60, \x60t3=0.18\x60 eV for the kinetic part (TB Hamiltonian), and \x60U=2.0\x60 eV for the interaction part (Hubbard term).",
    "",
    "Firstly we build the geometry of the unit cell of the 16-ZGNR with appropiate cell dimensions to have periodicity, e.g., along the $x$-axis direction and no coupling in any other direction."
  ],
  Cell.mk CellType.code [
    "# You can use the predefined function of sisl to build the unit cell of a 16-ZGNR:",
    "geom = sisl.geom.zgnr(16)",
    "",
    "# This function returns a periodic ZGNR along the x-axis (sisl.Geometry object).",
    "print(geom)"
  ],
  Cell.mk CellType.markdown [
    "Now you have to build the TB Hamiltonian, just as in the case of example [MFH 1](../MFH_1/run.ipynb). Again, you can make use of the function \x60sp2\x60 of the \x60hubbard\x60 package, which will return the \x60sisl.Hamiltonian\x60 object that we need to build the  \x60hubb.HubbardHamiltonian\x60."
  ],
  Cell.mk CellType.code [
    "# Build sisl.Hamiltonian object using the sp2 function with the specific hopping parameters",
    "Hsp2 = sp2(...)"
  ],
  Cell.mk CellType.markdown [
    "In this case, since the system has periodic boundary conditions, the Hamiltonian has to be diagonalized per $\\mathbf k$-point and then integrated to find the spin-densities. To do so you just need to pass the argument \x60nkpt=[nkx, nky, nkz]\x60 when creating the \x60hubb.HubabrdHamiltonian(...)\x60 object. This argument will set the number of $\\mathbf k$-points along each direction in which the Hamiltonian will be sampled in k-space. I.e. if the system is periodic only along the $x$-axis, you should pass something like \x60nkpt=[nkx, 1, 1]\x60, where \x60nkx>1\x60 (the larger this number is, the better the sampling and the slower the convergence process are)."
  ],
  Cell.mk CellType.code [
    "# Build the HubbardHamiltonian object using the U value from the reference paper",
    "HH = hubb.HubbardHamiltonian(Hsp2, U=U, nkpt=[nkx, nky, nkz], kT=1e-5)"
  ],
  Cell.mk CellType.markdown [
    "- 1. Before converging, you can plot the band structure of the pure TB Hamiltonian (\x60Hsp2\x60). One possible way is to do it with \x60sisl\x60. You can take a look at example [TB_01](https://github.com/zerothi/ts-tbt-sisl-tutorial/blob/master/TB_01/run.ipynb). In this case, the system is periodic along the $x$-axis, so you should calculate the bands like:",
    "\x60\x60\x60",
    "band = sisl.BandStructure(Hsp2, [[0., 0., 0.], [1./2, 0., 0.]], 301, [r\x27$\\Gamma$\x27, \x27X\x27])",
    "\x60\x60\x60",
    "",
    "- 2. Now you can converge using the routine \x60hubb.HubbardHamiltonian.converge(...)\x60, just as in example [MFH 1](../MFH_1/run.ipynb). Remember to initialize the spin-densities before convergence! TIP: you can start with polarizing the lower and upper edges of the ZGNR (place up electrons on one border and down electrons on the opposite border).",
    "",
    "- 3. Finally, you can visualize relevant physical quantities, such as the spin polarization per unit-cell and the band structure of the self-consistent solution. In exercise [MFH 1](../MFH_1/run.ipynb) there is an example of how to plot the spin polarization using the \x60hubbard\x60 package. To plot the bandstructure of the converged Hamiltonian you can do the same as in 1., but using the self-consistent solution stored in \x60HH\x60: ",
    "\x60\x60\x60",
    "band = sisl.BandStructure(HH.H, ...)",
    "\x60\x60\x60",
    "",
    "For more information about plotting functionalities in the \x60hubbard\x60 package you can type \x60help(plot)\x60.",
    "",
    "Now you can compare the bandstructure of the system for the pure TB Hamiltonian (before convergence) and of the self-consistent solution (after convergence).",
    "You should see a gap opening between the valence and conduction bands with respect to the non-converged solution. Such gap is called the correlation gap, and it appears because of the interaction between electrons."
  ],
  Cell.mk CellType.code [
  ]
]


/-- The mean-field Hubbard Hamiltonian exactly as written in
`docs/examples.rst`:
`H_MFH = H_0 + U Σ_i (⟨n_i↓⟩ n_i↑ + ⟨n_i↑⟩ n_i↓) − U Σ_i ⟨n_i↑⟩ ⟨n_i↓⟩`,
over `N` sites, with `avgUp i`, `avgDn i` the mean spin densities
`⟨n_i↑⟩`, `⟨n_i↓⟩` and `nUp i`, `nDn i` the values of the number
operators `n_i↑`, `n_i↓` in the chosen representation. -/
def H_MFH (N : ℕ) (H0 U : ℝ) (avgUp avgDn nUp nDn : Fin N → ℝ) : ℝ :=
  H0 + U * (∑ i : Fin N, (avgDn i * nUp i + avgUp i * nDn i))
    - U * (∑ i : Fin N, avgUp i * avgDn i)

/-- Modelled from the spec: the on-site Coulomb repulsion term that the
mean-field Hubbard model adds to the pure tight-binding Hamiltonian `H_0`. -/
def onSiteCoulombTerm (N : ℕ) (U : ℝ) (avgUp avgDn nUp nDn : Fin N → ℝ) : ℝ :=
  U * (∑ i : Fin N, (avgDn i * nUp i + avgUp i * nDn i))
    - U * (∑ i : Fin N, avgUp i * avgDn i)

/-- C1: the configuration file specifies exactly the items the spec lists:
the keyword lines outside every block are precisely `SystemLabel device`,
`TBT.HS MFH_HC.nc` and `TBT.Voltage 0.00000 eV`; the block sections are the
contour list and window (with start, end, step and quadrature rule), the
electrode list and blocks, and the chemical-potential list and bias block. -/
theorem config_specifies_spec_items :
    (outsideLines.filter (fun l => !(blankLine l))).map lineTokens =
        [["SystemLabel", "device"], ["TBT.HS", "MFH_HC.nc"],
         ["TBT.Voltage", "0.00000", "eV"]]
    ∧ blockNames = ["TBT.Contours", "TBT.Contour.window", "TS.Elecs",
        "TS.Elec.HGNRA", "TS.Elec.HGNRB", "TBT.ChemPots", "TBT.ChemPot.POT"]
    ∧ (findBlock "TBT.Contours").map (fun b => b.body.map lineTokens) =
        some [["window"]]
    ∧ (findBlock "TBT.Contour.window").map (fun b => b.body.map lineTokens) =
        some [["part", "line"], ["from", "-10.0", "eV", "to", "10.0", "eV"],
              ["delta", "0.01", "eV"], ["method", "mid-rule"]]
    ∧ (findBlock "TS.Elecs").map (fun b => b.body.map lineTokens) =
        some [["HGNRA"], ["HGNRB"]]
    ∧ (findBlock "TBT.ChemPots").map (fun b => b.body.map lineTokens) =
        some [["POT"]]
    ∧ kvInBlock "TBT.ChemPot.POT" "mu" = some ["V/2"] := by
  decide

/-- C2: the `%block` sections opened in the configuration file are exactly
`TBT.Contours`, `TBT.Contour.window`, `TS.Elecs`, `TS.Elec.HGNRA`,
`TS.Elec.HGNRB`, `TBT.ChemPots` and `TBT.ChemPot.POT`, and every line of
the file outside these blocks is blank or a keyword/value pair. -/
theorem config_block_sections_exact :
    blockNames = ["TBT.Contours", "TBT.Contour.window", "TS.Elecs",
        "TS.Elec.HGNRA", "TS.Elec.HGNRB", "TBT.ChemPots", "TBT.ChemPot.POT"]
    ∧ (outsideLines.all
        (fun l => blankLine l || decide (2 ≤ (lineTokens l).length))) = true := by
  decide

/-- C3: every electrode named in the `TS.Elecs` block has a `TS.Elec.<name>`
block holding the keywords `TSHS` (its own Hamiltonian file, `MFH_elec.nc`),
`chem-pot`, `semi-inf-dir` and `elec-pos`. -/
theorem electrode_blocks_complete (n : String) (h : n ∈ elecNames) :
    (findBlock (String.append "TS.Elec." n)).map
        (fun b => blockHasKey b "TSHS" && blockHasKey b "chem-pot" &&
          blockHasKey b "semi-inf-dir" && blockHasKey b "elec-pos") = some true
    ∧ kvInBlock (String.append "TS.Elec." n) "TSHS" = some ["MFH_elec.nc"] := by
  have hE : elecNames = ["HGNRA", "HGNRB"] := by decide
  rw [hE] at h
  simp only [List.mem_cons, List.not_mem_nil, or_false] at h
  rcases h with h | h <;> subst h <;> exact ⟨by decide, by decide⟩

/-- Witness for C3 at the concrete electrode name `HGNRA`. -/
theorem electrode_blocks_complete_witness :
    "HGNRA" ∈ elecNames
    ∧ ((findBlock (String.append "TS.Elec." "HGNRA")).map
        (fun b => blockHasKey b "TSHS" && blockHasKey b "chem-pot" &&
          blockHasKey b "semi-inf-dir" && blockHasKey b "elec-pos") = some true
      ∧ kvInBlock (String.append "TS.Elec." "HGNRA") "TSHS" =
          some ["MFH_elec.nc"]) :=
  ⟨by decide, electrode_blocks_complete "HGNRA" (by decide)⟩

/-- C4: the documented mean-field Hubbard Hamiltonian of
`docs/examples.rst` is the pure tight-binding Hamiltonian `H_0` plus the
on-site Coulomb repulsion term
`U Σ_i (⟨n_i↓⟩ n_i↑ + ⟨n_i↑⟩ n_i↓) − U Σ_i ⟨n_i↑⟩ ⟨n_i↓⟩`. -/
theorem mfh_hamiltonian_adds_onsite_coulomb (N : ℕ) (H0 U : ℝ)
    (avgUp avgDn nUp nDn : Fin N → ℝ) :
    H_MFH N H0 U avgUp avgDn nUp nDn =
      H0 + onSiteCoulombTerm N U avgUp avgDn nUp nDn := by
  unfold H_MFH onSiteCoulombTerm
  ring

/-- C5: the source set holds exactly three notebooks, and every line of
every code cell of each of them is straight-line code: blank, a comment, a
jupyter magic, an import of the external packages `sisl`, `numpy` or
`hubbard`, or a plain statement whose leading word is no Python control-flow
keyword. -/
theorem notebooks_are_straightline :
    (sourceSetFiles.filter (fun f => f.2 == "notebook")).length = 3
    ∧ ((codeLines mfh1Cells).all (fun l => (classifyPyLine l).isSome)) = true
    ∧ ((codeLines mfh3Cells).all (fun l => (classifyPyLine l).isSome)) = true
    ∧ ((codeLines periodicCells).all (fun l => (classifyPyLine l).isSome)) = true
    ∧ ((codeLines mfh1Cells ++ codeLines mfh3Cells ++ codeLines periodicCells).all
        (fun l => !(classifyPyLine l == some PyLineKind.importDirective) ||
          ["sisl", "numpy", "hubbard"].contains ((pyWords l).getD 1 ""))) = true := by
  decide

/-- C6: no code cell of any of the three notebooks holds a `try`, `except`,
`finally`, `raise` or `assert` word, while a markdown cell of the MFH_1
notebook carries the prose caveat that convergence fails unless the spin
symmetry between the up- and down-spin channels is broken. -/
theorem notebooks_no_executable_error_handling :
    ((codeLines mfh1Cells ++ codeLines mfh3Cells ++ codeLines periodicCells).all
        (fun l => (pyWords l).all (fun w => !(errorHandlingWords.contains w)))) = true
    ∧ (mfh1Cells.any (fun c => (!c.isCode) && c.source.any (fun l =>
        containsSub l "breaks the symmetry between the up- and down- spin channels" &&
        containsSub l "will not be able to find a solution"))) = true := by
  decide

/-- C7: no code cell of any of the three notebooks uses or imports any
concurrency, suspension, or shared-resource primitive: no word of any code
line names threads, processes, async/await, or locks. -/
theorem notebooks_serial_no_concurrency :
    ((codeLines mfh1Cells ++ codeLines mfh3Cells ++ codeLines periodicCells).all
        (fun l => (pyWords l).all (fun w => !(concurrencyWords.contains w)))) = true := by
  decide

/-- C8: every `%block` of the configuration file is closed by an
`%endblock` before the next `%block` begins, and the label written after
`%endblock`, when present, equals the opening label exactly for the
electrode sections: `TBT.ChemPots` is closed as `TS.ChemPots` and
`TBT.ChemPot.POT` as `TS.ChemPot.POT`, both mismatched. -/
theorem block_close_label_mismatch :
    parsedConfig.balanced = true
    ∧ parsedConfig.current = none
    ∧ configBlocks.map (fun b => (b.name, b.closeLabel)) =
        [("TBT.Contours", none), ("TBT.Contour.window", none),
         ("TS.Elecs", some "TS.Elecs"), ("TS.Elec.HGNRA", some "TS.Elec.HGNRA"),
         ("TS.Elec.HGNRB", some "TS.Elec.HGNRB"),
         ("TBT.ChemPots", some "TS.ChemPots"),
         ("TBT.ChemPot.POT", some "TS.ChemPot.POT")]
    ∧ (configBlocks.all (fun b =>
        match b.closeLabel with
        | none => true
        | some l => (l == b.name) == elecSectionNames.contains b.name)) = true := by
  decide

/-- C9: the configuration describes a zero-bias equilibrium two-terminal
setup: both electrode blocks name the Hamiltonian file `MFH_elec.nc` and
the chemical potential `POT`, their semi-infinite directions `-a1` and
`+a1` are opposite, the voltage is `0.00000 eV`, and the MFH_3 notebook
states that the electrodes' chemical potentials must coincide. -/
theorem zero_bias_equilibrium_setup :
    kvInBlock "TS.Elec.HGNRA" "TSHS" = kvInBlock "TS.Elec.HGNRB" "TSHS"
    ∧ kvInBlock "TS.Elec.HGNRA" "TSHS" = some ["MFH_elec.nc"]
    ∧ kvInBlock "TS.Elec.HGNRA" "chem-pot" = some ["POT"]
    ∧ kvInBlock "TS.Elec.HGNRB" "chem-pot" = some ["POT"]
    ∧ kvInBlock "TS.Elec.HGNRA" "semi-inf-dir" = some ["-a1"]
    ∧ kvInBlock "TS.Elec.HGNRB" "semi-inf-dir" = some ["+a1"]
    ∧ oppositeDirs "-a1" "+a1" = true
    ∧ outsideKv "TBT.Voltage" = some ["0.00000", "eV"]
    ∧ (mfh3Cells.any (fun c => c.source.any (fun l =>
        containsSub l
          "chemical potentials of the electrodes *must coincide*"))) = true := by
  decide

/-- C10: the configuration file is referentially closed: every electrode
name of `TS.Elecs` has its `TS.Elec.<name>` block, every `chem-pot` value
of an electrode block appears in the `TBT.ChemPots` list, and every name of
that list has a `TBT.ChemPot.<name>` block defining its `mu` value. -/
theorem config_referentially_closed :
    (elecNames.all (fun n => (findBlock (String.append "TS.Elec." n)).isSome)) = true
    ∧ (configBlocks.all (fun b =>
        !(listStartsWith b.name.toList "TS.Elec.".toList) ||
        (match bodyKv b "chem-pot" with
         | some [p] => chemPotNames.contains p
         | _ => false))) = true
    ∧ (chemPotNames.all (fun n =>
        match findBlock (String.append "TBT.ChemPot." n) with
        | some b => (bodyKv b "mu").isSome
        | none => false)) = true := by
  decide
